import Mathlib

set_option autoImplicit false

/-!
Shallow embedding of the PECO outage API client
(`src/peco/__init__.py`, `src/peco/const.py`).

JSON response bodies are modelled by an inductive `Json` type; the network
is modelled as a list of prepared responses consumed in order, together
with a log of the requests issued, so that properties of the form
"no further request is issued" can be stated.  Python exceptions are
modelled by the `PecoErr` sum type: the module defines HttpError,
BadJSONError, InvalidCountyError, IncompatibleMeterError and
UnresponsiveMeterError, and built-in exceptions that can escape the
module (KeyError, IndexError, TypeError, ValueError, JSON decode errors,
AttributeError, pydantic validation errors) get constructors of their own.
-/

/-- JSON values as parsed from a response body.  Numbers are modelled as
integers: every numeric field this client reads is an integral count. -/
inductive Json where
  | null : Json
  | bool (b : Bool) : Json
  | num (n : Int) : Json
  | str (s : String) : Json
  | arr (items : List Json) : Json
  | obj (fields : List (String × Json)) : Json
deriving Repr

/-- Error kinds.  The first group are the exception classes defined by the
module itself; the second group are Python built-ins and library errors
that the module code can let escape. -/
inductive PecoErr where
  | httpError : PecoErr
  | badJSONError : PecoErr
  | invalidCountyError (county : String) : PecoErr
  | incompatibleMeterError : PecoErr
  | unresponsiveMeterError : PecoErr
  | valueError (msg : String) : PecoErr
  | keyError (key : String) : PecoErr
  | indexError : PecoErr
  | typeError : PecoErr
  | jsonDecodeError : PecoErr
  | attributeError : PecoErr
  | validationError : PecoErr
  | noResponse : PecoErr
deriving Repr, DecidableEq

/-- Python truthiness of a JSON value (`if not x` tests). -/
def Json.truthy : Json → Bool
  | .null => false
  | .bool b => b
  | .num n => n != 0
  | .str s => !(s == "")
  | .arr items => !items.isEmpty
  | .obj fields => !fields.isEmpty

/-- Python subscript `j[key]` with a string key: KeyError when the key is
absent from an object, TypeError when the value is not an object. -/
def jGet (j : Json) (key : String) : Except PecoErr Json :=
  match j with
  | Json.obj fields =>
    match fields.lookup key with
    | some v => Except.ok v
    | none => Except.error (PecoErr.keyError key)
  | _ => Except.error PecoErr.typeError

/-- Python subscript `j[i]` with an integer index: IndexError when a list
is too short, a single-character string for string indexing, KeyError for
objects (JSON object keys are strings, so an integer key is absent),
TypeError otherwise. -/
def jIndex (j : Json) (i : Nat) : Except PecoErr Json :=
  match j with
  | Json.arr items =>
    match items.get? i with
    | some v => Except.ok v
    | none => Except.error PecoErr.indexError
  | Json.str s =>
    match s.data.get? i with
    | some c => Except.ok (Json.str (String.mk [c]))
    | none => Except.error PecoErr.indexError
  | Json.obj _ => Except.error (PecoErr.keyError (toString i))
  | _ => Except.error PecoErr.typeError

/-- Chained string-key subscripts `j[k1][k2]...`. -/
def jPath (j : Json) : List String → Except PecoErr Json
  | [] => Except.ok j
  | k :: ks =>
    match jGet j k with
    | Except.ok v => jPath v ks
    | Except.error e => Except.error e

/-- The `try: ... except KeyError as err: raise BadJSONError from err`
pattern: only KeyError is converted, every other outcome passes through. -/
def tryBadJSON (x : Except PecoErr Json) : Except PecoErr Json :=
  match x with
  | Except.error (PecoErr.keyError _) => Except.error PecoErr.badJSONError
  | other => other

/-- Python iteration over the value bound to `areas`: the code annotates it
as a list and iterates it; non-list values are collapsed to TypeError
(Python would eventually fail with a type-shaped error on such values and
no claim distinguishes the exact built-in). -/
def asList (j : Json) : Except PecoErr (List Json) :=
  match j with
  | Json.arr items => Except.ok items
  | _ => Except.error PecoErr.typeError

/-- Calling a `str` method such as `.replace` on a non-string raises
AttributeError. -/
def asPyStr (j : Json) : Except PecoErr String :=
  match j with
  | Json.str s => Except.ok s
  | _ => Except.error PecoErr.attributeError

/-- A pydantic `str` field: non-string input fails model validation. -/
def asStrField (j : Json) : Except PecoErr String :=
  match j with
  | Json.str s => Except.ok s
  | _ => Except.error PecoErr.validationError

/-- A pydantic `int` field: non-integer input fails model validation. -/
def asIntField (j : Json) : Except PecoErr Int :=
  match j with
  | Json.num n => Except.ok n
  | _ => Except.error PecoErr.validationError

/-- Python `str()` rendering used by `str.format` when interpolating the
report or deployment identifier into a URL template.  The identifiers the
service returns are strings; the container cases are rendered by a fixed
placeholder, and no claim depends on them. -/
def pyStr : Json → String
  | Json.str s => s
  | Json.num n => toString n
  | Json.bool b => if b then "True" else "False"
  | Json.null => "None"
  | Json.arr _ => "[...]"
  | Json.obj _ => "\x7b...\x7d"

/-- Prefix test on character lists (pattern, then text). -/
def isPre : List Char → List Char → Bool
  | [], _ => true
  | _ :: _, [] => false
  | p :: ps, c :: cs => p == c && isPre ps cs

/-- Fuel-driven worker for `pyReplace`; the fuel is the length of the text,
which bounds the number of steps since each step consumes at least one
character of the text. -/
def replaceAux (old new : List Char) : Nat → List Char → List Char
  | 0, cs => cs
  | _ + 1, [] => []
  | fuel + 1, c :: cs =>
    if isPre old (c :: cs) then
      new ++ replaceAux old new fuel (List.drop old.length (c :: cs))
    else
      c :: replaceAux old new fuel cs

/-- Python `s.replace(old, new)` for a nonempty `old`: replace every
non-overlapping occurrence, scanning left to right. -/
def pyReplace (s old new : String) : String :=
  String.mk (replaceAux old.data new.data s.data.length s.data)

/-- Split a character list at its first `>`: returns the characters before
it (none of which is `>`) and the characters after it. -/
def splitGt : List Char → Option (List Char × List Char)
  | [] => none
  | c :: cs =>
    if c == '>' then some ([], cs)
    else
      match splitGt cs with
      | some (before, after) => some (c :: before, after)
      | none => none

/-- Fuel-driven worker for `tagReSub`.  At a `<`, the regex `<[^>]+>`
matches exactly when a later `>` exists with at least one character in
between; the match is removed and scanning resumes after the `>`.
Otherwise the character is kept and scanning resumes at the next
position. -/
def stripAux : Nat → List Char → List Char
  | 0, cs => cs
  | _ + 1, [] => []
  | fuel + 1, c :: cs =>
    if c == '<' then
      match splitGt cs with
      | some (before, after) =>
        if before.isEmpty then c :: stripAux fuel cs
        else stripAux fuel after
      | none => c :: stripAux fuel cs
    else c :: stripAux fuel cs

/-- `TAG_RE.sub("", s)` for `TAG_RE = re.compile(r"<[^>]+>")`: delete every
substring matching `<[^>]+>`. -/
def tagReSub (s : String) : String :=
  String.mk (stripAux s.data.length s.data)

/-- The content transformation of `get_map_alerts`:
`TAG_RE.sub("", content.replace("<br />", "\n\n"))`. -/
def parsedContent (content : String) : String :=
  tagReSub (pyReplace content "<br />" "\n\n")

/-- Python `str.isdigit` restricted to the ASCII digits; the exotic
Unicode digit characters Python also accepts are outside the data this
client handles and outside every claim. -/
def isDigitStr (s : String) : Bool :=
  !(s == "") && s.data.all Char.isDigit

-- Constants from `src/peco/const.py`.

def API_URL : String :=
  "https://kubra.io/stormcenter/api/v1/stormcenters/39e6d9f3-fdea-4539-848f-b8631945da6f/views/74de8a50-3f45-4f6a-9483-fd618bb9165d/currentState?preview=false"

def REPORT_URL : String :=
  "https://kubra.io/\x7b\x7d/public/reports/a36a6292-1c55-44de-a6a9-44fedf9482ee_report.json"

def COUNTY_LIST : List String :=
  ["BUCKS", "CHESTER", "DELAWARE", "MONTGOMERY", "PHILADELPHIA", "YORK"]

def QUERY_URL : String :=
  "https://secure.peco.com/.euapi/mobile/custom/anon/PECO/outage/query"

def PRECHECK_URL : String :=
  "https://secure.peco.com/.euapi/mobile/custom/anon/PECO/outage/precheck"

def PING_URL : String :=
  "https://secure.peco.com/.euapi/mobile/custom/anon/PECO/outage/ping"

def ALERTS_URL : String :=
  "https://kubra.io/stormcenter/api/v1/stormcenters/39e6d9f3-fdea-4539-848f-b8631945da6f/alerts/deployed?id=\x7b\x7d&viewId=74de8a50-3f45-4f6a-9483-fd618bb9165d"

def STATUS_OK : Nat := 200

def PHONE_NUMBER_LENGTH : Nat := 10

/-- `template.format(arg)`: each URL template holds exactly one pair of
braces, so replacing every brace pair with the argument coincides with
Python format. -/
def formatUrl (template arg : String) : String :=
  pyReplace template "\x7b\x7d" arg

-- The network model.

/-- A request issued by the client: method, URL, and the JSON payload for
a POST. -/
structure Request where
  method : String
  url : String
  payload : Option Json
deriving Repr

/-- A prepared HTTP response: status code and body.  `body = none` means
the body cannot be parsed as JSON (aiohttp raises before the status code
is ever inspected in that case). -/
structure Response where
  status : Nat
  body : Option Json
deriving Repr

/-- Network state threaded through an operation: the prepared responses
not yet consumed, and the log of requests issued so far. -/
structure NetState where
  pending : List Response
  log : List Request
deriving Repr

/-- An aiohttp client session.  Sessions carry no observable state at this
level of abstraction; the type only records whether the caller supplied
one. -/
inductive Session where
  | mk : Session

/-- A computation over the network state that can fail with a `PecoErr`. -/
def M (α : Type) : Type := NetState → Except PecoErr α × NetState

/-- Sequencing in `M`: on error the remaining steps do not run. -/
def step {α β : Type} (x : M α) (f : α → M β) : M β := fun s =>
  match x s with
  | (Except.ok a, s1) => f a s1
  | (Except.error e, s1) => (Except.error e, s1)

def pureM {α : Type} (a : α) : M α := fun s => (Except.ok a, s)

def throwM {α : Type} (e : PecoErr) : M α := fun s => (Except.error e, s)

/-- Lift a pure fallible computation; the network state is untouched. -/
def liftE {α : Type} (x : Except PecoErr α) : M α := fun s => (x, s)

/-- The caller-supplied-session branch of `get_request`
(`async with websession.get(url) as r: data = await r.json()`): issue the
GET on the supplied session and parse the body. -/
def fetch_get_supplied (url : String) : M (Nat × Json) := fun s =>
  match s.pending with
  | [] => (Except.error PecoErr.noResponse, s)
  | r :: rest =>
    let s1 : NetState := ⟨rest, s.log ++ [⟨"GET", url, none⟩]⟩
    match r.body with
    | some d => (Except.ok (r.status, d), s1)
    | none => (Except.error PecoErr.jsonDecodeError, s1)

/-- The owned-session branch of `get_request`
(`async with aiohttp.ClientSession() as session, session.get(url) as r:`):
create a session scoped to the call, issue the GET, parse the body. -/
def fetch_get_owned (url : String) : M (Nat × Json) := fun s =>
  match s.pending with
  | [] => (Except.error PecoErr.noResponse, s)
  | r :: rest =>
    let s1 : NetState := ⟨rest, s.log ++ [⟨"GET", url, none⟩]⟩
    match r.body with
    | some d => (Except.ok (r.status, d), s1)
    | none => (Except.error PecoErr.jsonDecodeError, s1)

/-- The caller-supplied-session branch of `post_request`; the body is
parsed with `content_type="text/html"`, accepting the upstream quirk of an
HTML content type on a JSON body, which is invisible at this level. -/
def fetch_post_supplied (url : String) (payload : Json) : M (Nat × Json) := fun s =>
  match s.pending with
  | [] => (Except.error PecoErr.noResponse, s)
  | r :: rest =>
    let s1 : NetState := ⟨rest, s.log ++ [⟨"POST", url, some payload⟩]⟩
    match r.body with
    | some d => (Except.ok (r.status, d), s1)
    | none => (Except.error PecoErr.jsonDecodeError, s1)

/-- The owned-session branch of `post_request`. -/
def fetch_post_owned (url : String) (payload : Json) : M (Nat × Json) := fun s =>
  match s.pending with
  | [] => (Except.error PecoErr.noResponse, s)
  | r :: rest =>
    let s1 : NetState := ⟨rest, s.log ++ [⟨"POST", url, some payload⟩]⟩
    match r.body with
    | some d => (Except.ok (r.status, d), s1)
    | none => (Except.error PecoErr.jsonDecodeError, s1)

/-- `PecoOutageApi.get_request`: fetch and parse on either branch, then
raise HttpError when the status is not 200, else return the parsed body.
Parsing happens before the status check, exactly as in the source. -/
def get_request (url : String) (websession : Option Session) : M Json :=
  step
    (match websession with
     | some _ => fetch_get_supplied url
     | none => fetch_get_owned url)
    (fun sd => if sd.1 != STATUS_OK then throwM PecoErr.httpError else pureM sd.2)

/-- `PecoOutageApi.post_request`: like `get_request` with a JSON payload. -/
def post_request (url : String) (payload : Json) (websession : Option Session) : M Json :=
  step
    (match websession with
     | some _ => fetch_post_supplied url payload
     | none => fetch_post_owned url payload)
    (fun sd => if sd.1 != STATUS_OK then throwM PecoErr.httpError else pureM sd.2)

-- Result models (pydantic BaseModel subclasses).

structure OutageResults where
  customers_out : Int
  percent_customers_out : Int
  outage_count : Int
  customers_served : Int
deriving Repr, DecidableEq

structure AlertResults where
  alert_content : String
  alert_title : String
deriving Repr, DecidableEq

/-- The body of the match arm of the area scan: read
`area["cust_a"]["val"]`, `area["percent_cust_a"]["val"]`, `area["n_out"]`,
`area["cust_s"]` and build an `OutageResults`, validating the four int
fields in declaration order.  The same reads build the totals result in
`get_outage_totals`. -/
def extractArea (area : Json) : Except PecoErr OutageResults := do
  let ca ← jGet area "cust_a"
  let customers_out ← jGet ca "val"
  let pca ← jGet area "percent_cust_a"
  let percent_customers_out ← jGet pca "val"
  let outage_count ← jGet area "n_out"
  let customers_served ← jGet area "cust_s"
  let co ← asIntField customers_out
  let pco ← asIntField percent_customers_out
  let oc ← asIntField outage_count
  let cs ← asIntField customers_served
  Except.ok ⟨co, pco, oc, cs⟩

/-- The `for area in areas` loop of `get_outage_count`: the accumulator
starts as the all-zero result and is replaced by the extracted result on
every record whose `name` equals the county, so a later match overwrites
an earlier one. -/
def scanAreas (county : String) (acc : OutageResults) : List Json → Except PecoErr OutageResults
  | [] => Except.ok acc
  | area :: rest =>
    match jGet area "name" with
    | Except.error e => Except.error e
    | Except.ok nm =>
      match nm with
      | Json.str s =>
        if s == county then
          match extractArea area with
          | Except.error e => Except.error e
          | Except.ok r => scanAreas county r rest
        else scanAreas county acc rest
      | _ => scanAreas county acc rest

/-- `PecoOutageApi.get_outage_count`. -/
def get_outage_count (county : String) (websession : Option Session) : M OutageResults :=
  if county ∉ COUNTY_LIST then throwM (PecoErr.invalidCountyError county)
  else
    step (get_request API_URL websession) fun data =>
    step (liftE (tryBadJSON (jPath data ["data", "interval_generation_data"]))) fun reportId =>
    step (get_request (formatUrl REPORT_URL (pyStr reportId)) websession) fun data2 =>
    step (liftE (tryBadJSON (jPath data2 ["file_data", "areas"]))) fun areasJ =>
    step (liftE (asList areasJ)) fun areas =>
    liftE (scanAreas county ⟨0, 0, 0, 0⟩ areas)

/-- `PecoOutageApi.get_outage_totals`. -/
def get_outage_totals (websession : Option Session) : M OutageResults :=
  step (get_request API_URL websession) fun data =>
  step (liftE (tryBadJSON (jPath data ["data", "interval_generation_data"]))) fun reportId =>
  step (get_request (formatUrl REPORT_URL (pyStr reportId)) websession) fun data2 =>
  step (liftE (tryBadJSON (jPath data2 ["file_data", "totals"]))) fun totals =>
  liftE (extractArea totals)

/-- `PecoOutageApi.meter_check`. -/
def meter_check (phone_number : String) (websession : Option Session) : M Bool :=
  if phone_number.length != PHONE_NUMBER_LENGTH then
    throwM (PecoErr.valueError "Phone number must be 10 digits")
  else if !(isDigitStr phone_number) then
    throwM (PecoErr.valueError "Phone number must be numeric")
  else
    step (post_request QUERY_URL (Json.obj [("phone", Json.str phone_number)]) websession) fun data1 =>
    step (liftE (jGet data1 "success")) fun succ1 =>
    if !succ1.truthy then throwM PecoErr.httpError
    else
    step (liftE (jGet data1 "data")) fun dataField1 =>
    step (liftE (jIndex dataField1 0)) fun entry0 =>
    step (liftE (jGet entry0 "smartMeterStatus")) fun sms =>
    if !sms.truthy then throwM PecoErr.incompatibleMeterError
    else
    step (liftE (jGet entry0 "auid")) fun auid =>
    step (liftE (jGet entry0 "accountNumber")) fun accNumber =>
    step
      (post_request PRECHECK_URL
        (Json.obj [("auid", auid), ("accountNumber", accNumber), ("phone", Json.str phone_number)])
        websession) fun data2 =>
    step (liftE (jGet data2 "success")) fun succ2 =>
    if !succ2.truthy then throwM PecoErr.httpError
    else
    step (liftE (jGet data2 "data")) fun dataField2 =>
    step (liftE (jGet dataField2 "meterPing")) fun mp =>
    if !mp.truthy then throwM PecoErr.unresponsiveMeterError
    else
    step
      (post_request PING_URL
        (Json.obj [("auid", auid), ("accountNumber", accNumber)])
        websession) fun data3 =>
    step (liftE (jGet data3 "success")) fun succ3 =>
    if !succ3.truthy then throwM PecoErr.httpError
    else
    step (liftE (jGet data3 "data")) fun dataField3 =>
    step (liftE (jGet dataField3 "meterInfo")) fun mi =>
    step (liftE (jGet mi "pingResult")) fun pr =>
    pureM pr.truthy

/-- The lookup `data1["_embedded"]["deployedAlertResourceList"][0]["data"][0]`
inside the `try` of `get_map_alerts`. -/
def alertPath (j : Json) : Except PecoErr Json := do
  let emb ← jGet j "_embedded"
  let lst ← jGet emb "deployedAlertResourceList"
  let first ← jIndex lst 0
  let dat ← jGet first "data"
  jIndex dat 0

/-- `PecoOutageApi.get_map_alerts`.  The `except KeyError` around the
alert lookup catches only KeyError; any other failure of the lookup
propagates. -/
def get_map_alerts (websession : Option Session) : M AlertResults :=
  step (get_request API_URL websession) fun data =>
  step (liftE (tryBadJSON (jPath data ["controlCenter", "alertDeploymentId"]))) fun aid =>
  match aid with
  | Json.null => pureM ⟨"", ""⟩
  | _ =>
    step (get_request (formatUrl ALERTS_URL (pyStr aid)) websession) fun data1 =>
    match alertPath data1 with
    | Except.error (PecoErr.keyError _) => pureM ⟨"", ""⟩
    | Except.error e => throwM e
    | Except.ok alert =>
      step (liftE (jGet alert "content")) fun contentJ =>
      step (liftE (asPyStr contentJ)) fun content =>
      step (liftE (jGet alert "bannerTitle")) fun titleJ =>
      step (liftE (asStrField titleJ)) fun title =>
      pureM ⟨parsedContent content, title⟩

/-- The match test of the area scan: the record has a `name` value that is
the string `county`.  This is the loop guard `area["name"] == county`
restricted to records where the lookup succeeds. -/
def isMatch (county : String) (a : Json) : Bool :=
  match jGet a "name" with
  | Except.ok (Json.str s) => s == county
  | _ => false

-- Helper lemmas about the sequencing combinator and the transport layer.

theorem step_ok {α β : Type} {x : M α} {s s1 : NetState} {a : α} (f : α → M β)
    (h : x s = (Except.ok a, s1)) : step x f s = f a s1 := by
  unfold step; rw [h]

theorem step_err {α β : Type} {x : M α} {s s1 : NetState} {e : PecoErr} (f : α → M β)
    (h : x s = (Except.error e, s1)) : step x f s = (Except.error e, s1) := by
  unfold step; rw [h]

theorem get_request_200 (url : String) (ws : Option Session) (b : Json)
    (rest : List Response) (log : List Request) :
    get_request url ws ⟨⟨200, some b⟩ :: rest, log⟩ =
      (Except.ok b, ⟨rest, log ++ [⟨"GET", url, none⟩]⟩) := by
  cases ws <;> rfl

theorem get_request_non200 (url : String) (ws : Option Session) (st : Nat) (b : Json)
    (rest : List Response) (log : List Request) (h : st ≠ 200) :
    get_request url ws ⟨⟨st, some b⟩ :: rest, log⟩ =
      (Except.error PecoErr.httpError, ⟨rest, log ++ [⟨"GET", url, none⟩]⟩) := by
  cases ws <;>
    simp [get_request, step, fetch_get_supplied, fetch_get_owned, STATUS_OK, throwM, pureM, h]

theorem get_request_noparse (url : String) (ws : Option Session) (st : Nat)
    (rest : List Response) (log : List Request) :
    get_request url ws ⟨⟨st, none⟩ :: rest, log⟩ =
      (Except.error PecoErr.jsonDecodeError, ⟨rest, log ++ [⟨"GET", url, none⟩]⟩) := by
  cases ws <;> rfl

theorem post_request_200 (url : String) (p : Json) (ws : Option Session) (b : Json)
    (rest : List Response) (log : List Request) :
    post_request url p ws ⟨⟨200, some b⟩ :: rest, log⟩ =
      (Except.ok b, ⟨rest, log ++ [⟨"POST", url, some p⟩]⟩) := by
  cases ws <;> rfl

theorem post_request_non200 (url : String) (p : Json) (ws : Option Session) (st : Nat)
    (b : Json) (rest : List Response) (log : List Request) (h : st ≠ 200) :
    post_request url p ws ⟨⟨st, some b⟩ :: rest, log⟩ =
      (Except.error PecoErr.httpError, ⟨rest, log ++ [⟨"POST", url, some p⟩]⟩) := by
  cases ws <;>
    simp [post_request, step, fetch_post_supplied, fetch_post_owned, STATUS_OK, throwM, pureM, h]

theorem post_request_noparse (url : String) (p : Json) (ws : Option Session) (st : Nat)
    (rest : List Response) (log : List Request) :
    post_request url p ws ⟨⟨st, none⟩ :: rest, log⟩ =
      (Except.error PecoErr.jsonDecodeError, ⟨rest, log ++ [⟨"POST", url, some p⟩]⟩) := by
  cases ws <;> rfl

/-- Claim C9: for every URL, payload and prepared network state, the
caller-supplied-session branch and the owned-session branch of
`get_request` (and likewise of `post_request`) return the same value,
raise the same errors, and leave the same network state, so the two
branches are observationally equivalent to the consumer. -/
theorem c9_session_branches_equivalent :
    (∀ (url : String) (s : NetState), fetch_get_supplied url s = fetch_get_owned url s) ∧
    (∀ (url : String) (p : Json) (s : NetState),
      fetch_post_supplied url p s = fetch_post_owned url p s) ∧
    (∀ (url : String) (w1 w2 : Option Session) (s : NetState),
      get_request url w1 s = get_request url w2 s) ∧
    (∀ (url : String) (p : Json) (w1 w2 : Option Session) (s : NetState),
      post_request url p w1 s = post_request url p w2 s) := by
  refine ⟨fun _ _ => rfl, fun _ _ _ => rfl, ?_, ?_⟩
  · intro url w1 w2 s; cases w1 <;> cases w2 <;> rfl
  · intro url p w1 w2 s; cases w1 <;> cases w2 <;> rfl

/-- Claim C2 counterexample: a response with status 500 and a body that is
not valid JSON makes `get_request` raise the JSON decode error, not
HttpError, because the body is parsed before the status code is checked. -/
theorem c2_counterexample :
    (get_request API_URL none ⟨[⟨500, none⟩], []⟩).1 = Except.error PecoErr.jsonDecodeError ∧
    (get_request API_URL none ⟨[⟨500, none⟩], []⟩).1 ≠ Except.error PecoErr.httpError := by
  constructor
  · rfl
  · intro hcontra
    have h1 : (get_request API_URL none ⟨[⟨500, none⟩], []⟩).1 =
        Except.error PecoErr.jsonDecodeError := rfl
    rw [h1] at hcontra
    injection hcontra with h2
    exact PecoErr.noConfusion h2

/-- Claim C2, amended: for every HTTP response whose status code is not
200 and whose body parses as JSON, `get_request` and `post_request` raise
HttpError and the remaining steps of the calling pipeline do not execute;
when the body does not parse as JSON the decode error is raised instead
(parsing precedes the status check), and the remaining steps likewise do
not execute.  The pipeline conjuncts show exactly one request in the log
and the prepared follow-up responses untouched. -/
theorem c2_non_ok_status_raises :
    (∀ (url : String) (ws : Option Session) (st : Nat) (b : Json)
       (rest : List Response) (log : List Request), st ≠ 200 →
       get_request url ws ⟨⟨st, some b⟩ :: rest, log⟩ =
         (Except.error PecoErr.httpError, ⟨rest, log ++ [⟨"GET", url, none⟩]⟩)) ∧
    (∀ (url : String) (p : Json) (ws : Option Session) (st : Nat) (b : Json)
       (rest : List Response) (log : List Request), st ≠ 200 →
       post_request url p ws ⟨⟨st, some b⟩ :: rest, log⟩ =
         (Except.error PecoErr.httpError, ⟨rest, log ++ [⟨"POST", url, some p⟩]⟩)) ∧
    (∀ (url : String) (ws : Option Session) (st : Nat)
       (rest : List Response) (log : List Request),
       get_request url ws ⟨⟨st, none⟩ :: rest, log⟩ =
         (Except.error PecoErr.jsonDecodeError, ⟨rest, log ++ [⟨"GET", url, none⟩]⟩)) ∧
    (∀ (url : String) (p : Json) (ws : Option Session) (st : Nat)
       (rest : List Response) (log : List Request),
       post_request url p ws ⟨⟨st, none⟩ :: rest, log⟩ =
         (Except.error PecoErr.jsonDecodeError, ⟨rest, log ++ [⟨"POST", url, some p⟩]⟩)) ∧
    (∀ (county : String) (ws : Option Session) (st : Nat) (b : Json)
       (rest : List Response), county ∈ COUNTY_LIST → st ≠ 200 →
       get_outage_count county ws ⟨⟨st, some b⟩ :: rest, []⟩ =
         (Except.error PecoErr.httpError, ⟨rest, [⟨"GET", API_URL, none⟩]⟩)) ∧
    (∀ (phone : String) (ws : Option Session) (st : Nat) (b : Json)
       (rest : List Response), phone.length = 10 → isDigitStr phone = true → st ≠ 200 →
       meter_check phone ws ⟨⟨st, some b⟩ :: rest, []⟩ =
         (Except.error PecoErr.httpError,
          ⟨rest, [⟨"POST", QUERY_URL, some (Json.obj [("phone", Json.str phone)])⟩]⟩)) := by
  refine ⟨get_request_non200, post_request_non200, get_request_noparse, post_request_noparse, ?_, ?_⟩
  · intro county ws st b rest hc hst
    unfold get_outage_count
    rw [if_neg (by simp [hc])]
    exact step_err _ (get_request_non200 API_URL ws st b rest [] hst)
  · intro phone ws st b rest hlen hdig hst
    unfold meter_check
    rw [if_neg (by simp [hlen, PHONE_NUMBER_LENGTH]), if_neg (by simp [hdig])]
    exact step_err _ (post_request_non200 QUERY_URL _ ws st b rest [] hst)

/-- Claim C2 witness: concrete instances of every conjunct of
`c2_non_ok_status_raises` at status 404. -/
theorem c2_non_ok_status_raises_witness :
    get_request API_URL none ⟨[⟨404, some Json.null⟩], []⟩ =
      (Except.error PecoErr.httpError, ⟨[], [⟨"GET", API_URL, none⟩]⟩) ∧
    post_request QUERY_URL Json.null none ⟨[⟨404, some Json.null⟩], []⟩ =
      (Except.error PecoErr.httpError, ⟨[], [⟨"POST", QUERY_URL, some Json.null⟩]⟩) ∧
    get_request API_URL none ⟨[⟨404, none⟩], []⟩ =
      (Except.error PecoErr.jsonDecodeError, ⟨[], [⟨"GET", API_URL, none⟩]⟩) ∧
    post_request QUERY_URL Json.null none ⟨[⟨404, none⟩], []⟩ =
      (Except.error PecoErr.jsonDecodeError, ⟨[], [⟨"POST", QUERY_URL, some Json.null⟩]⟩) ∧
    get_outage_count "BUCKS" none ⟨[⟨404, some Json.null⟩, ⟨200, some Json.null⟩], []⟩ =
      (Except.error PecoErr.httpError, ⟨[⟨200, some Json.null⟩], [⟨"GET", API_URL, none⟩]⟩) ∧
    meter_check "5551234567" none ⟨[⟨404, some Json.null⟩, ⟨200, some Json.null⟩], []⟩ =
      (Except.error PecoErr.httpError,
       ⟨[⟨200, some Json.null⟩],
        [⟨"POST", QUERY_URL, some (Json.obj [("phone", Json.str "5551234567")])⟩]⟩) :=
  ⟨c2_non_ok_status_raises.1 API_URL none 404 Json.null [] [] (by decide),
   c2_non_ok_status_raises.2.1 QUERY_URL Json.null none 404 Json.null [] [] (by decide),
   c2_non_ok_status_raises.2.2.1 API_URL none 404 [] [],
   c2_non_ok_status_raises.2.2.2.1 QUERY_URL Json.null none 404 [] [],
   c2_non_ok_status_raises.2.2.2.2.1 "BUCKS" none 404 Json.null [⟨200, some Json.null⟩]
     (by decide) (by decide),
   c2_non_ok_status_raises.2.2.2.2.2 "5551234567" none 404 Json.null [⟨200, some Json.null⟩]
     (by decide) (by decide) (by decide)⟩

/-- Claim C5: for every phone number whose length is not 10 or that holds
a non-digit character, `meter_check` fails with a plain ValueError (not a
domain-specific error kind) and issues no network request: the request log
and the prepared responses are untouched. -/
theorem c5_meter_check_validates_phone (phone : String) (ws : Option Session)
    (pending : List Response) (log : List Request)
    (h : phone.length ≠ 10 ∨ ¬ isDigitStr phone) :
    ∃ msg, meter_check phone ws ⟨pending, log⟩ =
      (Except.error (PecoErr.valueError msg), ⟨pending, log⟩) := by
  unfold meter_check
  by_cases hl : phone.length = 10
  · have hd : ¬ isDigitStr phone := by
      rcases h with h | h
      · exact absurd hl h
      · exact h
    rw [if_neg (by simp [hl, PHONE_NUMBER_LENGTH]), if_pos (by simpa using hd)]
    exact ⟨_, rfl⟩
  · rw [if_pos (by simp [PHONE_NUMBER_LENGTH, hl])]
    exact ⟨_, rfl⟩

/-- Claim C5 witness: a 3-character phone number and a 10-character
non-numeric phone number, each with a prepared response that is never
consumed. -/
theorem c5_meter_check_validates_phone_witness :
    (∃ msg, meter_check "123" none ⟨[⟨200, some Json.null⟩], []⟩ =
      (Except.error (PecoErr.valueError msg), ⟨[⟨200, some Json.null⟩], []⟩)) ∧
    (∃ msg, meter_check "12345abcde" none ⟨[⟨200, some Json.null⟩], []⟩ =
      (Except.error (PecoErr.valueError msg), ⟨[⟨200, some Json.null⟩], []⟩)) :=
  ⟨c5_meter_check_validates_phone "123" none [⟨200, some Json.null⟩] [] (Or.inl (by decide)),
   c5_meter_check_validates_phone "12345abcde" none [⟨200, some Json.null⟩] []
     (Or.inr (by decide))⟩

theorem step_liftE_ok {α β : Type} {x : Except PecoErr α} {a : α} (f : α → M β) (s : NetState)
    (h : x = Except.ok a) : step (liftE x) f s = f a s := by
  rw [h]; rfl

theorem step_liftE_err {α β : Type} {x : Except PecoErr α} {e : PecoErr} (f : α → M β)
    (s : NetState) (h : x = Except.error e) : step (liftE x) f s = (Except.error e, s) := by
  rw [h]; rfl

/-- Claim C8: for every current-state response in which the path
`controlCenter.alertDeploymentId` resolves to null, `get_map_alerts`
returns empty-string alert content and title, raises no error, and issues
no request beyond the single current-state GET: the log holds exactly that
request and the remaining prepared responses are untouched. -/
theorem c8_null_deployment_id_is_no_alert (ws : Option Session) (b : Json)
    (rest : List Response)
    (h : jPath b ["controlCenter", "alertDeploymentId"] = Except.ok Json.null) :
    get_map_alerts ws ⟨⟨200, some b⟩ :: rest, []⟩ =
      (Except.ok ⟨"", ""⟩, ⟨rest, [⟨"GET", API_URL, none⟩]⟩) := by
  unfold get_map_alerts
  simp only [step_ok _ (get_request_200 API_URL ws b rest [])]
  rw [h]
  rfl

/-- Claim C8 witness: a concrete current-state body carrying a null
`alertDeploymentId`, with a spare prepared response that is never used. -/
theorem c8_null_deployment_id_is_no_alert_witness :
    get_map_alerts none
      ⟨[⟨200, some (Json.obj [("controlCenter", Json.obj [("alertDeploymentId", Json.null)])])⟩,
        ⟨200, some Json.null⟩], []⟩ =
      (Except.ok ⟨"", ""⟩, ⟨[⟨200, some Json.null⟩], [⟨"GET", API_URL, none⟩]⟩) :=
  c8_null_deployment_id_is_no_alert none
    (Json.obj [("controlCenter", Json.obj [("alertDeploymentId", Json.null)])])
    [⟨200, some Json.null⟩] rfl

/-- Claim C6: for every valid phone number and every query-endpoint
response with a true `success` flag and `data[0].smartMeterStatus` false,
`meter_check` fails with IncompatibleMeterError and the request log holds
only the query POST: the precheck and ping POSTs are never issued and the
remaining prepared responses are untouched. -/
theorem c6_incompatible_meter_stops_pipeline (phone : String) (ws : Option Session)
    (b1 d e0 : Json) (rest : List Response)
    (hlen : phone.length = 10) (hdig : isDigitStr phone = true)
    (hsucc : jGet b1 "success" = Except.ok (Json.bool true))
    (hdata : jGet b1 "data" = Except.ok d)
    (he0 : jIndex d 0 = Except.ok e0)
    (hsms : jGet e0 "smartMeterStatus" = Except.ok (Json.bool false)) :
    meter_check phone ws ⟨⟨200, some b1⟩ :: rest, []⟩ =
      (Except.error PecoErr.incompatibleMeterError,
       ⟨rest, [⟨"POST", QUERY_URL, some (Json.obj [("phone", Json.str phone)])⟩]⟩) := by
  unfold meter_check
  rw [if_neg (by simp [hlen, PHONE_NUMBER_LENGTH]), if_neg (by simp [hdig])]
  simp only [step_ok _ (post_request_200 QUERY_URL _ ws b1 rest [])]
  simp only [step_liftE_ok _ _ hsucc]
  simp only [Json.truthy, Bool.not_true, Bool.false_eq_true, if_false]
  simp only [step_liftE_ok _ _ hdata]
  simp only [step_liftE_ok _ _ he0]
  simp only [step_liftE_ok _ _ hsms]
  rfl

/-- Claim C6 witness: the concrete query response
`success = true, data = [ smartMeterStatus = false ]` with a spare
prepared response for the precheck step that is never consumed. -/
theorem c6_incompatible_meter_stops_pipeline_witness :
    meter_check "5551234567" none
      ⟨[⟨200, some (Json.obj [("success", Json.bool true),
          ("data", Json.arr [Json.obj [("smartMeterStatus", Json.bool false)]])])⟩,
        ⟨200, some Json.null⟩], []⟩ =
      (Except.error PecoErr.incompatibleMeterError,
       ⟨[⟨200, some Json.null⟩],
        [⟨"POST", QUERY_URL, some (Json.obj [("phone", Json.str "5551234567")])⟩]⟩) :=
  c6_incompatible_meter_stops_pipeline "5551234567" none
    (Json.obj [("success", Json.bool true),
      ("data", Json.arr [Json.obj [("smartMeterStatus", Json.bool false)]])])
    (Json.arr [Json.obj [("smartMeterStatus", Json.bool false)]])
    (Json.obj [("smartMeterStatus", Json.bool false)])
    [⟨200, some Json.null⟩] (by decide) (by decide) rfl rfl rfl rfl

theorem step_liftE_pure {α β : Type} (a : α) (f : α → M β) (s : NetState) :
    step (liftE (Except.ok a)) f s = f a s := rfl

theorem tryBadJSON_ok (v : Json) : tryBadJSON (Except.ok v) = Except.ok v := rfl

theorem tryBadJSON_key (k : String) :
    tryBadJSON (Except.error (PecoErr.keyError k)) = Except.error PecoErr.badJSONError := rfl

/-- Claim C7: the alert content `get_map_alerts` returns is the raw
`content` field with every literal line-break tag first replaced by a
double newline (`pyReplace`) and every substring matching the tag pattern
then removed (`tagReSub`), while the title is the `bannerTitle` field
verbatim; and on the concrete input from the spec the transformation
yields the specified output. -/
theorem c7_alert_content_parsing :
    (∀ (ws : Option Session) (b1 : Json) (aidS : String) (b2 alert : Json) (c t : String)
       (rest : List Response),
       jPath b1 ["controlCenter", "alertDeploymentId"] = Except.ok (Json.str aidS) →
       alertPath b2 = Except.ok alert →
       jGet alert "content" = Except.ok (Json.str c) →
       jGet alert "bannerTitle" = Except.ok (Json.str t) →
       (get_map_alerts ws ⟨⟨200, some b1⟩ :: ⟨200, some b2⟩ :: rest, []⟩).1 =
         Except.ok ⟨parsedContent c, t⟩) ∧
    parsedContent "<p>Power out</p><br />Crews dispatched" = "Power out\n\nCrews dispatched" := by
  constructor
  · intro ws b1 aidS b2 alert c t rest h1 h2 hc ht
    unfold get_map_alerts
    simp only [step_ok _ (get_request_200 API_URL ws b1 (⟨200, some b2⟩ :: rest) [])]
    rw [h1, tryBadJSON_ok]
    simp only [step_liftE_pure]
    simp only [step_ok _ (get_request_200 _ ws b2 rest _)]
    rw [h2]
    simp only [hc, step_liftE_pure]
    simp only [ht, step_liftE_pure]
    rfl
  · decide

/-- Claim C7 witness: a full concrete run with the content string from the
spec and title "Outage Alert". -/
theorem c7_alert_content_parsing_witness :
    (get_map_alerts none
      ⟨[⟨200, some (Json.obj [("controlCenter", Json.obj [("alertDeploymentId", Json.str "D")])])⟩,
        ⟨200, some (Json.obj [("_embedded", Json.obj [("deployedAlertResourceList", Json.arr [Json.obj [("data", Json.arr [Json.obj [("content", Json.str "<p>Power out</p><br />Crews dispatched"), ("bannerTitle", Json.str "Outage Alert")]])]])])])⟩], []⟩).1 =
      Except.ok ⟨"Power out\n\nCrews dispatched", "Outage Alert"⟩ := by
  rw [c7_alert_content_parsing.1 none
    (Json.obj [("controlCenter", Json.obj [("alertDeploymentId", Json.str "D")])]) "D"
    (Json.obj [("_embedded", Json.obj [("deployedAlertResourceList", Json.arr [Json.obj [("data", Json.arr [Json.obj [("content", Json.str "<p>Power out</p><br />Crews dispatched"), ("bannerTitle", Json.str "Outage Alert")]])]])])])
    (Json.obj [("content", Json.str "<p>Power out</p><br />Crews dispatched"), ("bannerTitle", Json.str "Outage Alert")])
    "<p>Power out</p><br />Crews dispatched" "Outage Alert" [] rfl rfl rfl rfl]
  rw [c7_alert_content_parsing.2]

/-- Claim C3 counterexample: a deployed alerts response in which
`deployedAlertResourceList` is present but an empty list.  The path
`_embedded.deployedAlertResourceList[0].data[0]` is absent because the
list is too short, yet `get_map_alerts` raises IndexError instead of
returning the empty AlertResults: the `except` clause catches only
KeyError. -/
theorem c3_counterexample :
    ((get_map_alerts none
      ⟨[⟨200, some (Json.obj [("controlCenter", Json.obj [("alertDeploymentId", Json.str "D")])])⟩,
        ⟨200, some (Json.obj [("_embedded", Json.obj [("deployedAlertResourceList",
          Json.arr [])])])⟩], []⟩).1 = Except.error PecoErr.indexError) ∧
    ((get_map_alerts none
      ⟨[⟨200, some (Json.obj [("controlCenter", Json.obj [("alertDeploymentId", Json.str "D")])])⟩,
        ⟨200, some (Json.obj [("_embedded", Json.obj [("deployedAlertResourceList",
          Json.arr [])])])⟩], []⟩).1 ≠ Except.ok ⟨"", ""⟩) := by
  refine ⟨rfl, fun hc => ?_⟩
  have h1 : (get_map_alerts none
      ⟨[⟨200, some (Json.obj [("controlCenter", Json.obj [("alertDeploymentId", Json.str "D")])])⟩,
        ⟨200, some (Json.obj [("_embedded", Json.obj [("deployedAlertResourceList",
          Json.arr [])])])⟩], []⟩).1 = Except.error PecoErr.indexError := rfl
  rw [h1] at hc
  exact Except.noConfusion hc

/-- Claim C3, amended: when the alert path
`_embedded.deployedAlertResourceList[0].data[0]` fails because a key is
missing (a KeyError), `get_map_alerts` returns the empty AlertResults
without raising; but when it fails because a list is too short (an
IndexError), the error propagates and `get_map_alerts` raises. -/
theorem c3_missing_alert_path_is_empty :
    (∀ (ws : Option Session) (b1 : Json) (aidS : String) (b2 : Json) (k : String)
       (rest : List Response),
       jPath b1 ["controlCenter", "alertDeploymentId"] = Except.ok (Json.str aidS) →
       alertPath b2 = Except.error (PecoErr.keyError k) →
       (get_map_alerts ws ⟨⟨200, some b1⟩ :: ⟨200, some b2⟩ :: rest, []⟩).1 =
         Except.ok ⟨"", ""⟩) ∧
    (∀ (ws : Option Session) (b1 : Json) (aidS : String) (b2 : Json)
       (rest : List Response),
       jPath b1 ["controlCenter", "alertDeploymentId"] = Except.ok (Json.str aidS) →
       alertPath b2 = Except.error PecoErr.indexError →
       (get_map_alerts ws ⟨⟨200, some b1⟩ :: ⟨200, some b2⟩ :: rest, []⟩).1 =
         Except.error PecoErr.indexError) := by
  constructor
  · intro ws b1 aidS b2 k rest h1 h2
    unfold get_map_alerts
    simp only [step_ok _ (get_request_200 API_URL ws b1 (⟨200, some b2⟩ :: rest) [])]
    rw [h1, tryBadJSON_ok]
    simp only [step_liftE_pure]
    simp only [step_ok _ (get_request_200 _ ws b2 rest _)]
    rw [h2]
    rfl
  · intro ws b1 aidS b2 rest h1 h2
    unfold get_map_alerts
    simp only [step_ok _ (get_request_200 API_URL ws b1 (⟨200, some b2⟩ :: rest) [])]
    rw [h1, tryBadJSON_ok]
    simp only [step_liftE_pure]
    simp only [step_ok _ (get_request_200 _ ws b2 rest _)]
    rw [h2]
    rfl

/-- Claim C3 witness: one run where the resource-list key itself is
missing (returns the empty AlertResults) and one where the list is empty
(raises IndexError). -/
theorem c3_missing_alert_path_is_empty_witness :
    ((get_map_alerts none
      ⟨[⟨200, some (Json.obj [("controlCenter", Json.obj [("alertDeploymentId", Json.str "D")])])⟩,
        ⟨200, some (Json.obj [("_embedded", Json.obj [])])⟩], []⟩).1 =
      Except.ok ⟨"", ""⟩) ∧
    ((get_map_alerts none
      ⟨[⟨200, some (Json.obj [("controlCenter", Json.obj [("alertDeploymentId", Json.str "D")])])⟩,
        ⟨200, some (Json.obj [("_embedded", Json.obj [("deployedAlertResourceList",
          Json.arr [Json.obj [("data", Json.arr [])]])])])⟩], []⟩).1 =
      Except.error PecoErr.indexError) :=
  ⟨c3_missing_alert_path_is_empty.1 none
    (Json.obj [("controlCenter", Json.obj [("alertDeploymentId", Json.str "D")])]) "D"
    (Json.obj [("_embedded", Json.obj [])]) "deployedAlertResourceList" [] rfl rfl,
   c3_missing_alert_path_is_empty.2 none
    (Json.obj [("controlCenter", Json.obj [("alertDeploymentId", Json.str "D")])]) "D"
    (Json.obj [("_embedded", Json.obj [("deployedAlertResourceList",
      Json.arr [Json.obj [("data", Json.arr [])]])])]) [] rfl rfl⟩

theorem scanAreas_no_match (county : String) (acc : OutageResults) (areas : List Json)
    (h : ∀ a ∈ areas, (∃ v, jGet a "name" = Except.ok v) ∧ isMatch county a = false) :
    scanAreas county acc areas = Except.ok acc := by
  induction areas with
  | nil => rfl
  | cons a rest ih =>
    obtain ⟨⟨v, hv⟩, hm⟩ := h a (List.mem_cons_self a rest)
    have hrest := fun x hx => h x (List.mem_cons_of_mem a hx)
    unfold scanAreas
    rw [hv]
    cases v with
    | str s =>
      have hs : (s == county) = false := by
        unfold isMatch at hm
        rw [hv] at hm
        exact hm
      simp only [hs, Bool.false_eq_true, if_false]
      exact ih hrest
    | null => exact ih hrest
    | bool b => exact ih hrest
    | num n => exact ih hrest
    | arr items => exact ih hrest
    | obj fields => exact ih hrest

theorem get_outage_count_run (county : String) (ws : Option Session) (b1 b2 rid : Json)
    (areas : List Json) (rest : List Response)
    (hc : county ∈ COUNTY_LIST)
    (h1 : jPath b1 ["data", "interval_generation_data"] = Except.ok rid)
    (h2 : jPath b2 ["file_data", "areas"] = Except.ok (Json.arr areas)) :
    get_outage_count county ws ⟨⟨200, some b1⟩ :: ⟨200, some b2⟩ :: rest, []⟩ =
      (scanAreas county ⟨0, 0, 0, 0⟩ areas,
       ⟨rest, [⟨"GET", API_URL, none⟩,
               ⟨"GET", formatUrl REPORT_URL (pyStr rid), none⟩]⟩) := by
  unfold get_outage_count
  rw [if_neg (by simp [hc])]
  simp only [step_ok _ (get_request_200 API_URL ws b1 (⟨200, some b2⟩ :: rest) [])]
  rw [h1, tryBadJSON_ok]
  simp only [step_liftE_pure]
  simp only [step_ok _ (get_request_200 _ ws b2 rest _)]
  rw [h2, tryBadJSON_ok]
  simp only [step_liftE_pure]
  rfl

/-- Claim C4 counterexample: a report whose `areas` list holds a single
record with no `name` key.  The list contains no record with name equal to
the requested county, yet `get_outage_count` raises KeyError from the loop
guard instead of returning the all-zero result. -/
theorem c4_counterexample :
    ((get_outage_count "BUCKS" none
      ⟨[⟨200, some (Json.obj [("data", Json.obj [("interval_generation_data", Json.str "rid")])])⟩,
        ⟨200, some (Json.obj [("file_data", Json.obj [("areas", Json.arr [Json.obj []])])])⟩],
       []⟩).1 = Except.error (PecoErr.keyError "name")) ∧
    ((get_outage_count "BUCKS" none
      ⟨[⟨200, some (Json.obj [("data", Json.obj [("interval_generation_data", Json.str "rid")])])⟩,
        ⟨200, some (Json.obj [("file_data", Json.obj [("areas", Json.arr [Json.obj []])])])⟩],
       []⟩).1 ≠ Except.ok ⟨0, 0, 0, 0⟩) := by
  refine ⟨rfl, fun hc => ?_⟩
  have h1 : (get_outage_count "BUCKS" none
      ⟨[⟨200, some (Json.obj [("data", Json.obj [("interval_generation_data", Json.str "rid")])])⟩,
        ⟨200, some (Json.obj [("file_data", Json.obj [("areas", Json.arr [Json.obj []])])])⟩],
       []⟩).1 = Except.error (PecoErr.keyError "name") := rfl
  rw [h1] at hc
  exact Except.noConfusion hc

/-- Claim C4, amended: for every report response whose `file_data.areas`
list consists of records that each carry a `name` value and none of whose
`name` values is the requested county, `get_outage_count` returns the
OutageResults with all four fields zero rather than raising. -/
theorem c4_no_match_returns_zeros (county : String) (ws : Option Session) (b1 b2 rid : Json)
    (areas : List Json) (rest : List Response)
    (hc : county ∈ COUNTY_LIST)
    (h1 : jPath b1 ["data", "interval_generation_data"] = Except.ok rid)
    (h2 : jPath b2 ["file_data", "areas"] = Except.ok (Json.arr areas))
    (hareas : ∀ a ∈ areas, (∃ v, jGet a "name" = Except.ok v) ∧ isMatch county a = false) :
    get_outage_count county ws ⟨⟨200, some b1⟩ :: ⟨200, some b2⟩ :: rest, []⟩ =
      (Except.ok ⟨0, 0, 0, 0⟩,
       ⟨rest, [⟨"GET", API_URL, none⟩,
               ⟨"GET", formatUrl REPORT_URL (pyStr rid), none⟩]⟩) := by
  rw [get_outage_count_run county ws b1 b2 rid areas rest hc h1 h2]
  rw [scanAreas_no_match county ⟨0, 0, 0, 0⟩ areas hareas]

/-- Claim C4 witness: a report whose only area record is named CHESTER
while BUCKS is requested; the result is the all-zero OutageResults. -/
theorem c4_no_match_returns_zeros_witness :
    get_outage_count "BUCKS" none
      ⟨[⟨200, some (Json.obj [("data", Json.obj [("interval_generation_data", Json.str "rid")])])⟩,
        ⟨200, some (Json.obj [("file_data", Json.obj [("areas",
          Json.arr [Json.obj [("name", Json.str "CHESTER")]])])])⟩], []⟩ =
      (Except.ok ⟨0, 0, 0, 0⟩,
       ⟨[], [⟨"GET", API_URL, none⟩,
             ⟨"GET", formatUrl REPORT_URL (pyStr (Json.str "rid")), none⟩]⟩) :=
  c4_no_match_returns_zeros "BUCKS" none
    (Json.obj [("data", Json.obj [("interval_generation_data", Json.str "rid")])])
    (Json.obj [("file_data", Json.obj [("areas",
      Json.arr [Json.obj [("name", Json.str "CHESTER")]])])])
    (Json.str "rid") [Json.obj [("name", Json.str "CHESTER")]] [] (by decide) rfl rfl
    (by
      intro a ha
      rw [List.mem_singleton] at ha
      subst ha
      exact ⟨⟨Json.str "CHESTER", rfl⟩, rfl⟩)


theorem isMatch_elim {county : String} {a : Json} (h : isMatch county a = true) :
    ∃ s, jGet a "name" = Except.ok (Json.str s) ∧ (s == county) = true := by
  unfold isMatch at h
  cases hj : jGet a "name" with
  | error e => rw [hj] at h; exact absurd h (by simp)
  | ok v =>
    cases v with
    | str s => rw [hj] at h; exact ⟨s, rfl, h⟩
    | null => rw [hj] at h; exact absurd h (by simp)
    | bool b => rw [hj] at h; exact absurd h (by simp)
    | num n => rw [hj] at h; exact absurd h (by simp)
    | arr items => rw [hj] at h; exact absurd h (by simp)
    | obj fields => rw [hj] at h; exact absurd h (by simp)

theorem scanAreas_cons (county : String) (acc : OutageResults) (a : Json) (rest : List Json) :
    scanAreas county acc (a :: rest) =
      match jGet a "name" with
      | Except.error e => Except.error e
      | Except.ok nm =>
        match nm with
        | Json.str s =>
          if s == county then
            match extractArea a with
            | Except.error e => Except.error e
            | Except.ok r => scanAreas county r rest
          else scanAreas county acc rest
        | _ => scanAreas county acc rest := rfl

theorem scanAreas_append (county : String) (acc : OutageResults) (l1 l2 : List Json) :
    scanAreas county acc (l1 ++ l2) =
      match scanAreas county acc l1 with
      | Except.ok acc1 => scanAreas county acc1 l2
      | Except.error e => Except.error e := by
  induction l1 generalizing acc with
  | nil => rfl
  | cons a rest ih =>
    simp only [List.cons_append, scanAreas_cons]
    cases hname : jGet a "name" with
    | error e => rfl
    | ok nm =>
      cases nm with
      | str s =>
        by_cases hs : (s == county) = true
        · simp only [hs, if_true]
          cases hx : extractArea a with
          | error e => rfl
          | ok r => exact ih r
        · rw [Bool.not_eq_true] at hs
          simp only [hs, Bool.false_eq_true, if_false]
          exact ih acc
      | null => exact ih acc
      | bool b => exact ih acc
      | num n => exact ih acc
      | arr items => exact ih acc
      | obj fields => exact ih acc

theorem scanAreas_isOk (county : String) (acc : OutageResults) (areas : List Json)
    (h : ∀ a ∈ areas, (∃ v, jGet a "name" = Except.ok v) ∧
      (isMatch county a = true → ∃ r0, extractArea a = Except.ok r0)) :
    ∃ res, scanAreas county acc areas = Except.ok res := by
  induction areas generalizing acc with
  | nil => exact ⟨acc, rfl⟩
  | cons a rest ih =>
    obtain ⟨⟨v, hv⟩, hm⟩ := h a (List.mem_cons_self a rest)
    have hrest := fun x hx => h x (List.mem_cons_of_mem a hx)
    rw [scanAreas_cons]
    rw [hv]
    cases v with
    | str s =>
      by_cases hs : (s == county) = true
      · obtain ⟨r0, hr0⟩ := hm (by unfold isMatch; rw [hv]; exact hs)
        simp only [hs, if_true, hr0]
        exact ih r0 hrest
      · rw [Bool.not_eq_true] at hs
        simp only [hs, Bool.false_eq_true, if_false]
        exact ih acc hrest
    | null => exact ih acc hrest
    | bool b => exact ih acc hrest
    | num n => exact ih acc hrest
    | arr items => exact ih acc hrest
    | obj fields => exact ih acc hrest

/-- Claim C10: when the `areas` list holds two or more records whose
`name` equals the requested county, the scan does not stop at the first
match: the returned OutageResults is the one built from the last matching
record in list order.  The list is presented as `l1 ++ alast :: l2` with a
match inside `l1`, `alast` matching, and no match after it, so `alast` is
the last matching record. -/
theorem c10_last_match_wins (county : String) (ws : Option Session) (b1 b2 rid : Json)
    (l1 l2 : List Json) (alast : Json) (r : OutageResults) (rest : List Response)
    (hc : county ∈ COUNTY_LIST)
    (h1 : jPath b1 ["data", "interval_generation_data"] = Except.ok rid)
    (h2 : jPath b2 ["file_data", "areas"] = Except.ok (Json.arr (l1 ++ alast :: l2)))
    (hpre : ∀ a ∈ l1, (∃ v, jGet a "name" = Except.ok v) ∧
      (isMatch county a = true → ∃ r0, extractArea a = Except.ok r0))
    (_hmulti : ∃ a ∈ l1, isMatch county a = true)
    (hlast : isMatch county alast = true)
    (hext : extractArea alast = Except.ok r)
    (hsuf : ∀ a ∈ l2, (∃ v, jGet a "name" = Except.ok v) ∧ isMatch county a = false) :
    (get_outage_count county ws ⟨⟨200, some b1⟩ :: ⟨200, some b2⟩ :: rest, []⟩).1 =
      Except.ok r := by
  rw [get_outage_count_run county ws b1 b2 rid (l1 ++ alast :: l2) rest hc h1 h2]
  show scanAreas county ⟨0, 0, 0, 0⟩ (l1 ++ alast :: l2) = Except.ok r
  rw [scanAreas_append]
  obtain ⟨acc1, hacc1⟩ := scanAreas_isOk county ⟨0, 0, 0, 0⟩ l1 hpre
  simp only [hacc1]
  obtain ⟨s, hname, hs⟩ := isMatch_elim hlast
  rw [scanAreas_cons, hname]
  simp only [hs, if_true, hext]
  exact scanAreas_no_match county r l2 hsuf

/-- Claim C10 witness: two BUCKS records with different statistics; the
result carries the statistics of the second record. -/
theorem c10_last_match_wins_witness :
    (get_outage_count "BUCKS" none
      ⟨[⟨200, some (Json.obj [("data", Json.obj [("interval_generation_data", Json.str "rid")])])⟩,
        ⟨200, some (Json.obj [("file_data", Json.obj [("areas", Json.arr [Json.obj [("name", Json.str "BUCKS"), ("cust_a", Json.obj [("val", Json.num 1)]), ("percent_cust_a", Json.obj [("val", Json.num 2)]), ("n_out", Json.num 3), ("cust_s", Json.num 4)], Json.obj [("name", Json.str "BUCKS"), ("cust_a", Json.obj [("val", Json.num 5)]), ("percent_cust_a", Json.obj [("val", Json.num 10)]), ("n_out", Json.num 7), ("cust_s", Json.num 100)]])])])⟩], []⟩).1 =
      Except.ok ⟨5, 10, 7, 100⟩ :=
  c10_last_match_wins "BUCKS" none
    (Json.obj [("data", Json.obj [("interval_generation_data", Json.str "rid")])])
    (Json.obj [("file_data", Json.obj [("areas", Json.arr [Json.obj [("name", Json.str "BUCKS"), ("cust_a", Json.obj [("val", Json.num 1)]), ("percent_cust_a", Json.obj [("val", Json.num 2)]), ("n_out", Json.num 3), ("cust_s", Json.num 4)], Json.obj [("name", Json.str "BUCKS"), ("cust_a", Json.obj [("val", Json.num 5)]), ("percent_cust_a", Json.obj [("val", Json.num 10)]), ("n_out", Json.num 7), ("cust_s", Json.num 100)]])])])
    (Json.str "rid")
    [Json.obj [("name", Json.str "BUCKS"), ("cust_a", Json.obj [("val", Json.num 1)]), ("percent_cust_a", Json.obj [("val", Json.num 2)]), ("n_out", Json.num 3), ("cust_s", Json.num 4)]]
    []
    (Json.obj [("name", Json.str "BUCKS"), ("cust_a", Json.obj [("val", Json.num 5)]), ("percent_cust_a", Json.obj [("val", Json.num 10)]), ("n_out", Json.num 7), ("cust_s", Json.num 100)])
    ⟨5, 10, 7, 100⟩ [] (by decide) rfl rfl
    (by
      intro a ha
      rw [List.mem_singleton] at ha
      subst ha
      exact ⟨⟨Json.str "BUCKS", rfl⟩, fun _ => ⟨⟨1, 2, 3, 4⟩, rfl⟩⟩)
    ⟨Json.obj [("name", Json.str "BUCKS"), ("cust_a", Json.obj [("val", Json.num 1)]), ("percent_cust_a", Json.obj [("val", Json.num 2)]), ("n_out", Json.num 3), ("cust_s", Json.num 4)],
     List.mem_singleton.mpr rfl, rfl⟩
    rfl rfl
    (fun a ha => absurd ha (List.not_mem_nil a))

theorem extractArea_cust_a_err {area : Json} {e : PecoErr}
    (h : jGet area "cust_a" = Except.error e) : extractArea area = Except.error e := by
  unfold extractArea
  rw [h]
  rfl

theorem get_outage_totals_run (ws : Option Session) (b1 b2 rid totals : Json)
    (rest : List Response)
    (h1 : jPath b1 ["data", "interval_generation_data"] = Except.ok rid)
    (h2 : jPath b2 ["file_data", "totals"] = Except.ok totals) :
    get_outage_totals ws ⟨⟨200, some b1⟩ :: ⟨200, some b2⟩ :: rest, []⟩ =
      (extractArea totals,
       ⟨rest, [⟨"GET", API_URL, none⟩,
               ⟨"GET", formatUrl REPORT_URL (pyStr rid), none⟩]⟩) := by
  unfold get_outage_totals
  simp only [step_ok _ (get_request_200 API_URL ws b1 (⟨200, some b2⟩ :: rest) [])]
  rw [h1, tryBadJSON_ok]
  simp only [step_liftE_pure]
  simp only [step_ok _ (get_request_200 _ ws b2 rest _)]
  rw [h2, tryBadJSON_ok]
  simp only [step_liftE_pure]
  rfl

/-- Claim C1 counterexample: both fetches succeed with status 200 and the
`file_data.totals` object exists but has no `cust_a` key.  A required key
is absent from a successfully fetched response, yet `get_outage_totals`
raises the generic lookup error KeyError, not BadJSONError: the reads of
the totals fields are outside the `try` block. -/
theorem c1_counterexample :
    ((get_outage_totals none
      ⟨[⟨200, some (Json.obj [("data", Json.obj [("interval_generation_data", Json.str "rid")])])⟩,
        ⟨200, some (Json.obj [("file_data", Json.obj [("totals", Json.obj [])])])⟩],
       []⟩).1 = Except.error (PecoErr.keyError "cust_a")) ∧
    ((get_outage_totals none
      ⟨[⟨200, some (Json.obj [("data", Json.obj [("interval_generation_data", Json.str "rid")])])⟩,
        ⟨200, some (Json.obj [("file_data", Json.obj [("totals", Json.obj [])])])⟩],
       []⟩).1 ≠ Except.error PecoErr.badJSONError) := by
  refine ⟨rfl, fun hc => ?_⟩
  have h1 : (get_outage_totals none
      ⟨[⟨200, some (Json.obj [("data", Json.obj [("interval_generation_data", Json.str "rid")])])⟩,
        ⟨200, some (Json.obj [("file_data", Json.obj [("totals", Json.obj [])])])⟩],
       []⟩).1 = Except.error (PecoErr.keyError "cust_a") := rfl
  rw [h1] at hc
  injection hc with h2
  exact PecoErr.noConfusion h2

/-- Claim C1, amended: a key absent from a successfully fetched (HTTP 200)
response yields BadJSONError exactly for the lookups wrapped in
`try/except KeyError`: the report-id path `data.interval_generation_data`
in both `get_outage_count` and `get_outage_totals` (conjuncts 1-2), the
`file_data.areas` path in `get_outage_count` (conjunct 3) and the
`file_data.totals` path in `get_outage_totals` (conjunct 4).  The totals
fields in `get_outage_totals` (conjunct 5), the per-area fields in
`get_outage_count` (conjunct 6), and the field reads in `meter_check`
(conjunct 7, shown for `success`) are unwrapped and fail with the generic
lookup error KeyError. -/
theorem c1_badjson_wrapped_lookups_only :
    (∀ (county : String) (ws : Option Session) (b : Json) (rest : List Response) (k : String),
       county ∈ COUNTY_LIST →
       jPath b ["data", "interval_generation_data"] = Except.error (PecoErr.keyError k) →
       get_outage_count county ws ⟨⟨200, some b⟩ :: rest, []⟩ =
         (Except.error PecoErr.badJSONError, ⟨rest, [⟨"GET", API_URL, none⟩]⟩)) ∧
    (∀ (ws : Option Session) (b : Json) (rest : List Response) (k : String),
       jPath b ["data", "interval_generation_data"] = Except.error (PecoErr.keyError k) →
       get_outage_totals ws ⟨⟨200, some b⟩ :: rest, []⟩ =
         (Except.error PecoErr.badJSONError, ⟨rest, [⟨"GET", API_URL, none⟩]⟩)) ∧
    (∀ (county : String) (ws : Option Session) (b1 b2 rid : Json) (rest : List Response)
       (k : String),
       county ∈ COUNTY_LIST →
       jPath b1 ["data", "interval_generation_data"] = Except.ok rid →
       jPath b2 ["file_data", "areas"] = Except.error (PecoErr.keyError k) →
       get_outage_count county ws ⟨⟨200, some b1⟩ :: ⟨200, some b2⟩ :: rest, []⟩ =
         (Except.error PecoErr.badJSONError,
          ⟨rest, [⟨"GET", API_URL, none⟩,
                  ⟨"GET", formatUrl REPORT_URL (pyStr rid), none⟩]⟩)) ∧
    (∀ (ws : Option Session) (b1 b2 rid : Json) (rest : List Response) (k : String),
       jPath b1 ["data", "interval_generation_data"] = Except.ok rid →
       jPath b2 ["file_data", "totals"] = Except.error (PecoErr.keyError k) →
       get_outage_totals ws ⟨⟨200, some b1⟩ :: ⟨200, some b2⟩ :: rest, []⟩ =
         (Except.error PecoErr.badJSONError,
          ⟨rest, [⟨"GET", API_URL, none⟩,
                  ⟨"GET", formatUrl REPORT_URL (pyStr rid), none⟩]⟩)) ∧
    (∀ (ws : Option Session) (b1 b2 rid totals : Json) (rest : List Response),
       jPath b1 ["data", "interval_generation_data"] = Except.ok rid →
       jPath b2 ["file_data", "totals"] = Except.ok totals →
       jGet totals "cust_a" = Except.error (PecoErr.keyError "cust_a") →
       (get_outage_totals ws ⟨⟨200, some b1⟩ :: ⟨200, some b2⟩ :: rest, []⟩).1 =
         Except.error (PecoErr.keyError "cust_a")) ∧
    (∀ (county : String) (ws : Option Session) (b1 b2 rid area : Json)
       (rest : List Response),
       county ∈ COUNTY_LIST →
       jPath b1 ["data", "interval_generation_data"] = Except.ok rid →
       jPath b2 ["file_data", "areas"] = Except.ok (Json.arr [area]) →
       jGet area "name" = Except.ok (Json.str county) →
       jGet area "cust_a" = Except.error (PecoErr.keyError "cust_a") →
       (get_outage_count county ws ⟨⟨200, some b1⟩ :: ⟨200, some b2⟩ :: rest, []⟩).1 =
         Except.error (PecoErr.keyError "cust_a")) ∧
    (∀ (phone : String) (ws : Option Session) (b1 : Json) (rest : List Response),
       phone.length = 10 → isDigitStr phone = true →
       jGet b1 "success" = Except.error (PecoErr.keyError "success") →
       meter_check phone ws ⟨⟨200, some b1⟩ :: rest, []⟩ =
         (Except.error (PecoErr.keyError "success"),
          ⟨rest, [⟨"POST", QUERY_URL, some (Json.obj [("phone", Json.str phone)])⟩]⟩)) := by
  refine ⟨?_, ?_, ?_, ?_, ?_, ?_, ?_⟩
  · intro county ws b rest k hc h
    unfold get_outage_count
    rw [if_neg (by simp [hc])]
    simp only [step_ok _ (get_request_200 API_URL ws b rest [])]
    rw [h, tryBadJSON_key]
    rfl
  · intro ws b rest k h
    unfold get_outage_totals
    simp only [step_ok _ (get_request_200 API_URL ws b rest [])]
    rw [h, tryBadJSON_key]
    rfl
  · intro county ws b1 b2 rid rest k hc h1 h2
    unfold get_outage_count
    rw [if_neg (by simp [hc])]
    simp only [step_ok _ (get_request_200 API_URL ws b1 (⟨200, some b2⟩ :: rest) [])]
    rw [h1, tryBadJSON_ok]
    simp only [step_liftE_pure]
    simp only [step_ok _ (get_request_200 _ ws b2 rest _)]
    rw [h2, tryBadJSON_key]
    rfl
  · intro ws b1 b2 rid rest k h1 h2
    unfold get_outage_totals
    simp only [step_ok _ (get_request_200 API_URL ws b1 (⟨200, some b2⟩ :: rest) [])]
    rw [h1, tryBadJSON_ok]
    simp only [step_liftE_pure]
    simp only [step_ok _ (get_request_200 _ ws b2 rest _)]
    rw [h2, tryBadJSON_key]
    rfl
  · intro ws b1 b2 rid totals rest h1 h2 hca
    rw [get_outage_totals_run ws b1 b2 rid totals rest h1 h2]
    exact extractArea_cust_a_err hca
  · intro county ws b1 b2 rid area rest hc h1 h2 hname hca
    rw [get_outage_count_run county ws b1 b2 rid [area] rest hc h1 h2]
    show scanAreas county ⟨0, 0, 0, 0⟩ [area] = Except.error (PecoErr.keyError "cust_a")
    rw [scanAreas_cons, hname]
    simp only [beq_self_eq_true, if_true, extractArea_cust_a_err hca]
  · intro phone ws b1 rest hlen hdig hs
    unfold meter_check
    rw [if_neg (by simp [hlen, PHONE_NUMBER_LENGTH]), if_neg (by simp [hdig])]
    simp only [step_ok _ (post_request_200 QUERY_URL _ ws b1 rest [])]
    exact step_liftE_err _ _ hs

/-- Claim C1 witness: concrete instances of all seven conjuncts of
`c1_badjson_wrapped_lookups_only`. -/
theorem c1_badjson_wrapped_lookups_only_witness :
    (get_outage_count "BUCKS" none ⟨[⟨200, some (Json.obj [("data", Json.obj [])])⟩], []⟩ =
      (Except.error PecoErr.badJSONError, ⟨[], [⟨"GET", API_URL, none⟩]⟩)) ∧
    (get_outage_totals none ⟨[⟨200, some (Json.obj [("data", Json.obj [])])⟩], []⟩ =
      (Except.error PecoErr.badJSONError, ⟨[], [⟨"GET", API_URL, none⟩]⟩)) ∧
    (get_outage_count "BUCKS" none
      ⟨[⟨200, some (Json.obj [("data", Json.obj [("interval_generation_data", Json.str "rid")])])⟩, ⟨200, some (Json.obj [("file_data", Json.obj [])])⟩], []⟩ =
      (Except.error PecoErr.badJSONError, ⟨[], [⟨"GET", API_URL, none⟩, ⟨"GET", formatUrl REPORT_URL (pyStr (Json.str "rid")), none⟩]⟩)) ∧
    (get_outage_totals none
      ⟨[⟨200, some (Json.obj [("data", Json.obj [("interval_generation_data", Json.str "rid")])])⟩, ⟨200, some (Json.obj [("file_data", Json.obj [])])⟩], []⟩ =
      (Except.error PecoErr.badJSONError, ⟨[], [⟨"GET", API_URL, none⟩, ⟨"GET", formatUrl REPORT_URL (pyStr (Json.str "rid")), none⟩]⟩)) ∧
    ((get_outage_totals none
      ⟨[⟨200, some (Json.obj [("data", Json.obj [("interval_generation_data", Json.str "rid")])])⟩, ⟨200, some (Json.obj [("file_data", Json.obj [("totals", Json.obj [])])])⟩], []⟩).1 =
      Except.error (PecoErr.keyError "cust_a")) ∧
    ((get_outage_count "BUCKS" none
      ⟨[⟨200, some (Json.obj [("data", Json.obj [("interval_generation_data", Json.str "rid")])])⟩, ⟨200, some (Json.obj [("file_data", Json.obj [("areas", Json.arr [Json.obj [("name", Json.str "BUCKS")]])])])⟩], []⟩).1 =
      Except.error (PecoErr.keyError "cust_a")) ∧
    (meter_check "5551234567" none ⟨[⟨200, some (Json.obj [])⟩], []⟩ =
      (Except.error (PecoErr.keyError "success"), ⟨[], [⟨"POST", QUERY_URL, some (Json.obj [("phone", Json.str "5551234567")])⟩]⟩)) :=
  ⟨c1_badjson_wrapped_lookups_only.1 "BUCKS" none (Json.obj [("data", Json.obj [])]) []
     "interval_generation_data" (by decide) rfl,
   c1_badjson_wrapped_lookups_only.2.1 none (Json.obj [("data", Json.obj [])]) []
     "interval_generation_data" rfl,
   c1_badjson_wrapped_lookups_only.2.2.1 "BUCKS" none (Json.obj [("data", Json.obj [("interval_generation_data", Json.str "rid")])])
     (Json.obj [("file_data", Json.obj [])]) (Json.str "rid") [] "areas" (by decide) rfl rfl,
   c1_badjson_wrapped_lookups_only.2.2.2.1 none (Json.obj [("data", Json.obj [("interval_generation_data", Json.str "rid")])])
     (Json.obj [("file_data", Json.obj [])]) (Json.str "rid") [] "totals" rfl rfl,
   c1_badjson_wrapped_lookups_only.2.2.2.2.1 none (Json.obj [("data", Json.obj [("interval_generation_data", Json.str "rid")])])
     (Json.obj [("file_data", Json.obj [("totals", Json.obj [])])]) (Json.str "rid") (Json.obj []) [] rfl rfl rfl,
   c1_badjson_wrapped_lookups_only.2.2.2.2.2.1 "BUCKS" none (Json.obj [("data", Json.obj [("interval_generation_data", Json.str "rid")])])
     (Json.obj [("file_data", Json.obj [("areas", Json.arr [Json.obj [("name", Json.str "BUCKS")]])])]) (Json.str "rid") (Json.obj [("name", Json.str "BUCKS")]) [] (by decide) rfl rfl rfl rfl,
   c1_badjson_wrapped_lookups_only.2.2.2.2.2.2 "5551234567" none (Json.obj []) []
     (by decide) (by decide) rfl⟩
